import Mathlib

/-!
Shallow embedding of `CVE_PushService.py` (an NVD CVE alert pipeline).

Modelling conventions:
- Timestamps are microseconds (`Int`) since an arbitrary epoch; the stdlib
  `datetime.strptime` call on the fixed format `%Y-%m-%dT%H:%M:%S.%f` is an
  external library call and is modelled as a parameter
  `pt : String → Option Int` (`none` = the string fails to parse, the
  `except` branch of `is_recent`); `datetime.utcnow()` is the parameter
  `now : Int`.  `timedelta.total_seconds() <= 1 * 3600` becomes a comparison
  of the microsecond difference with `1 * 3600 * 1000000`.
- CVSS scores (Python floats such as 9.8, 7.0) are `Rat`.
- A JSON dictionary field accessed with `.get(k, d)` is an `Option` read
  with `Option.getD`; a field accessed with `[k]` raises `KeyError` when
  absent.  `parse_cve_item` catches `KeyError` (returning `None`); the
  `IndexError` raised by `[0]` on an empty metric list is NOT caught and
  propagates to the caller, which we model with `Except`.
- The sqlite table `vulns` (primary key `id`) is a list of rows `Store`;
  `INSERT` with a duplicate primary key raises `sqlite3.IntegrityError`,
  which `save_vuln` swallows, so `save_vuln` on a present id is the
  identity on the store.
- `fetch_nvd_data` wraps its body in `except Exception: return []`; the
  distinguishable outcomes of the HTTP/gzip/json pipeline are the
  constructors of `FetchOutcome`.
-/

/-- `cvssData` dictionary: `baseScore` and `vectorString` read via `.get`. -/
structure CvssData where
  baseScore : Option Rat
  vectorString : Option String
deriving DecidableEq

/-- One element of a `cvssMetricV31`/`V30`/`V2` list; `["cvssData"]` raises
`KeyError` when the key is absent. -/
structure MetricEntry where
  cvssData : Option CvssData
deriving DecidableEq

/-- The `metrics` dictionary: each schema family key may be absent. -/
structure Metrics where
  cvssMetricV31 : Option (List MetricEntry)
  cvssMetricV30 : Option (List MetricEntry)
  cvssMetricV2 : Option (List MetricEntry)
deriving DecidableEq

/-- One element of `descriptions`: `lang` is read with `.get`, `value`
with `["value"]` (KeyError when absent). -/
structure Description where
  lang : Option String
  value : Option String
deriving DecidableEq

/-- One element of `references`: `url` read with `.get("url", "")`. -/
structure Reference where
  url : Option String
deriving DecidableEq

/-- The `cve` dictionary of one feed entry. -/
structure CveData where
  id : Option String
  published : Option String
  descriptions : Option (List Description)
  metrics : Option Metrics
  references : Option (List Reference)
deriving DecidableEq

/-- One raw feed entry; `["cve"]` raises `KeyError` when absent. -/
structure CveItem where
  cve : Option CveData
deriving DecidableEq

/-- The dictionary built by `parse_cve_item` and stored by `save_vuln`. -/
structure VulnInfo where
  id : String
  published_date : String
  cvss_score : Rat
  description : String
  vector_string : String
  refs : String
  source : String
deriving DecidableEq

/-- `CVSS_THRESHOLD = 7.0`. -/
def CVSS_THRESHOLD : Rat := 7

/-- Python exceptions that can arise inside the `try` of `parse_cve_item`:
`KeyError` (caught by its `except KeyError` handler) and the `IndexError`
from indexing `[0]` into an empty metric list (not caught). -/
inductive PyErr where
  | keyError (key : String)
  | indexError
deriving DecidableEq

/-- `is_recent(published_date_str)`: parse the timestamp (parameter `pt`
stands for the fixed-format `strptime`); on parse failure return `False`
(logged); otherwise accept iff `utcnow - published` is at most one hour
(`1 * 3600` seconds, compared in microseconds). -/
def is_recent (pt : String → Option Int) (published_date_str : String) (now : Int) : Bool :=
  match pt published_date_str with
  | none => false
  | some published_dt => decide (now - published_dt ≤ 1 * 3600 * 1000000)

/-- `next` over the descriptions whose `lang` equals `"en"`, with default
`"No description available"`: the first English description wins; its
missing `value` key raises `KeyError`. -/
def getEnDescription (descs : List Description) : Except PyErr String :=
  match descs.find? (fun d => d.lang == some "en") with
  | none => Except.ok "No description available"
  | some d =>
    match d.value with
    | some v => Except.ok v
    | none => Except.error (PyErr.keyError "value")

/-- `metrics[family][0]["cvssData"]`: `[0]` on an empty list raises
`IndexError`; a first element without `cvssData` raises `KeyError`. -/
def firstMetric (l : List MetricEntry) : Except PyErr CvssData :=
  match l with
  | [] => Except.error PyErr.indexError
  | m :: _ =>
    match m.cvssData with
    | some d => Except.ok d
    | none => Except.error (PyErr.keyError "cvssData")

/-- Lines 120-135 of `parse_cve_item`: resolve `(cvss_score, vector_string)`
from the metrics container with strict priority V31, then V30, then V2;
`(0.0, "N/A")` when `metrics` is absent or no family key is present. -/
def extract_severity (metrics : Option Metrics) : Except PyErr (Rat × String) :=
  match metrics with
  | none => Except.ok (0, "N/A")
  | some ms =>
    match ms.cvssMetricV31 with
    | some l => (firstMetric l).map (fun d => (d.baseScore.getD 0, d.vectorString.getD "N/A"))
    | none =>
      match ms.cvssMetricV30 with
      | some l => (firstMetric l).map (fun d => (d.baseScore.getD 0, d.vectorString.getD "N/A"))
      | none =>
        match ms.cvssMetricV2 with
        | some l => (firstMetric l).map (fun d => (d.baseScore.getD 0, d.vectorString.getD "N/A"))
        | none => Except.ok (0, "N/A")

/-- The body of the `try` block of `parse_cve_item`, before its
`except KeyError` handler is applied. -/
def parse_cve_item_core (pt : String → Option Int) (now : Int) (cve_item : CveItem) :
    Except PyErr (Option VulnInfo) :=
  match cve_item.cve with
  | none => Except.error (PyErr.keyError "cve")
  | some cve_data =>
    let cve_id := cve_data.id.getD "UNKNOWN"
    match cve_data.published with
    | none => Except.error (PyErr.keyError "published")
    | some published_date =>
      if is_recent pt published_date now then
        match getEnDescription (cve_data.descriptions.getD []) with
        | Except.error e => Except.error e
        | Except.ok description =>
          match extract_severity cve_data.metrics with
          | Except.error e => Except.error e
          | Except.ok (cvss_score, vector_string) =>
            if cvss_score < CVSS_THRESHOLD then Except.ok none
            else
              let refs := String.intercalate "\n"
                (((cve_data.references.getD []).map (fun r => r.url.getD "")).take 3)
              Except.ok (some
                { id := cve_id
                  published_date := cve_data.published.getD "N/A"
                  cvss_score := cvss_score
                  description := description
                  vector_string := vector_string
                  refs := refs
                  source := "NVD" })
      else Except.ok none

/-- `parse_cve_item`: the `try` body with the `except KeyError` handler
(log and return `None`); an `IndexError` is not caught and propagates,
modelled as `Except.error ()`. -/
def parse_cve_item (pt : String → Option Int) (now : Int) (cve_item : CveItem) :
    Except Unit (Option VulnInfo) :=
  match parse_cve_item_core pt now cve_item with
  | Except.ok r => Except.ok r
  | Except.error (PyErr.keyError _) => Except.ok none
  | Except.error PyErr.indexError => Except.error ()

/-- The sqlite table `vulns` as the list of its rows (`id` is the
primary key). -/
abbrev Store := List VulnInfo

/-- `SELECT 1 FROM vulns WHERE id=?` returned a row. -/
def hasId (store : Store) (i : String) : Bool :=
  List.any store (fun r => r.id == i)

/-- `is_new_vuln(vuln_info)`: no row with this id exists yet. -/
def is_new_vuln (store : Store) (vuln_info : VulnInfo) : Bool :=
  !(hasId store vuln_info.id)

/-- `save_vuln(vuln_info)`: `INSERT` the row; a duplicate primary key
raises `sqlite3.IntegrityError`, which is swallowed (`pass`), leaving the
table unchanged. -/
def save_vuln (store : Store) (vuln_info : VulnInfo) : Store :=
  if hasId store vuln_info.id then store else store ++ [vuln_info]

/-- Distinguishable outcomes of one `fetch_nvd_data` attempt:
`requests.get` failure, gzip decompression failure, `json.loads` failure,
or a decoded payload whose `vulnerabilities` key is absent (`none`) or
present with a list. -/
inductive FetchOutcome where
  | networkError
  | gzipError
  | jsonError
  | payload (vulnerabilities : Option (List CveItem))
deriving DecidableEq

/-- `fetch_nvd_data`: every exception path returns `[]` (logged), and a
payload without the `vulnerabilities` key yields `.get("vulnerabilities", [])
= []`. -/
def fetch_nvd_data (outcome : FetchOutcome) : List CveItem :=
  match outcome with
  | FetchOutcome.networkError => []
  | FetchOutcome.gzipError => []
  | FetchOutcome.jsonError => []
  | FetchOutcome.payload none => []
  | FetchOutcome.payload (some vs) => vs

/-- One iteration of the `for item in cve_items` loop of `main`: parse, and
when a record is produced and is new, persist it (and notify); returns the
updated store and the persisted record, if any. -/
def processOne (pt : String → Option Int) (now : Int) (item : CveItem) (store : Store) :
    Except Unit (Store × Option VulnInfo) :=
  match parse_cve_item pt now item with
  | Except.error e => Except.error e
  | Except.ok none => Except.ok (store, none)
  | Except.ok (some v) =>
    if is_new_vuln store v then Except.ok (save_vuln store v, some v)
    else Except.ok (store, none)

/-- The whole `for` loop of `main`: returns the final store, `new_vulns`
and `new_ids` (in processing order; each new record is also the subject of
one `send_notification` call). -/
def processItems (pt : String → Option Int) (now : Int) :
    List CveItem → Store → Except Unit (Store × Nat × List String)
  | [], store => Except.ok (store, 0, [])
  | item :: rest, store =>
    match processOne pt now item store with
    | Except.error e => Except.error e
    | Except.ok (store1, r) =>
      match processItems pt now rest store1 with
      | Except.error e => Except.error e
      | Except.ok (store2, n, ids) =>
        match r with
        | some v => Except.ok (store2, n + 1, v.id :: ids)
        | none => Except.ok (store2, n, ids)

/-- Observable result of one `main()` run: final table contents, the
`new_vulns` counter, `new_ids`, the contents of the `new_vulns.flag`
artifact (`none` = file not written), and the return value. -/
structure MainResult where
  store : Store
  newCount : Nat
  newIds : List String
  artifact : Option String
  ret : Nat
deriving DecidableEq

/-- `main()`: fetch the recent window; if the result is empty, fetch the
full-year window; if still empty, return 0 with nothing processed and no
artifact; otherwise run the per-item loop and, when `new_vulns > 0`, write
`new_vulns.flag` with the count on the first line and the ids joined by
newlines; return 0.  (Named `main_run` because `main` is reserved.) -/
def main_run (recentFetch yearFetch : FetchOutcome) (pt : String → Option Int) (now : Int)
    (store : Store) : Except Unit MainResult :=
  let cve_items0 := fetch_nvd_data recentFetch
  let cve_items := if cve_items0.isEmpty then fetch_nvd_data yearFetch else cve_items0
  if cve_items.isEmpty then
    Except.ok { store := store, newCount := 0, newIds := [], artifact := none, ret := 0 }
  else
    match processItems pt now cve_items store with
    | Except.error e => Except.error e
    | Except.ok (store1, n, ids) =>
      Except.ok
        { store := store1
          newCount := n
          newIds := ids
          artifact :=
            if n > 0 then some (toString n ++ "\n" ++ String.intercalate "\n" ids) else none
          ret := 0 }

deriving instance DecidableEq for Except

/-! Concrete fixtures used by witnesses and counterexamples.  `ptZero`
stands for a `strptime` that parses every string to instant 0. -/

/-- A timestamp parse that maps every string to instant 0. -/
def ptZero : String → Option Int := fun _ => some 0

/-- The Python literal `9.8` (the CVSS score used in the spec scenarios),
as the reduced rational 49/5. -/
def score98 : Rat := Rat.mk' 49 5 (by decide) (by decide)

/-- The `cve` data of a fully well-formed feed entry: id `CVE-2099-0001`,
a parseable timestamp, an English description, a V31 metric scoring 9.8
next to a V2 metric scoring 5, and five reference URLs. -/
def cveFull : CveData :=
  ⟨some "CVE-2099-0001", some "2099-01-01T00:00:00.000",
    some [⟨some "en", some "desc"⟩],
    some ⟨some [⟨some ⟨some score98, some "AV:N"⟩⟩], none, some [⟨some ⟨some 5, some "V2V"⟩⟩]⟩,
    some [⟨some "u1"⟩, ⟨some "u2"⟩, ⟨some "u3"⟩, ⟨some "u4"⟩, ⟨some "u5"⟩]⟩

/-- The feed entry wrapping `cveFull`. -/
def itemFull : CveItem := ⟨some cveFull⟩

/-- The record `parse_cve_item` produces from `itemFull` at instant 0
under `ptZero`. -/
def recFull : VulnInfo :=
  ⟨"CVE-2099-0001", "2099-01-01T00:00:00.000", score98, "desc", "AV:N", "u1\nu2\nu3", "NVD"⟩

/-! Shared inversion and structure lemmas about the pipeline. -/

theorem hasId_append (s t : Store) (i : String) :
    hasId (s ++ t) i = (hasId s i || hasId t i) := by
  unfold hasId
  exact List.any_append

theorem processOne_inv (pt : String → Option Int) (now : Int) (item : CveItem)
    (store store1 : Store) (r : Option VulnInfo)
    (h : processOne pt now item store = Except.ok (store1, r)) :
    (parse_cve_item pt now item = Except.ok none ∧ store1 = store ∧ r = none)
    ∨ (∃ v, parse_cve_item pt now item = Except.ok (some v) ∧ hasId store v.id = true ∧
        store1 = store ∧ r = none)
    ∨ (∃ v, parse_cve_item pt now item = Except.ok (some v) ∧ hasId store v.id = false ∧
        store1 = store ++ [v] ∧ r = some v) := by
  unfold processOne at h
  rcases hp : parse_cve_item pt now item with e | o
  · rw [hp] at h; cases h
  · rw [hp] at h
    rcases o with _ | v
    · left
      cases h
      exact ⟨rfl, rfl, rfl⟩
    · dsimp only at h
      rcases hnew : is_new_vuln store v with _ | _
      · right; left
        rw [hnew] at h
        simp only [Bool.false_eq_true, if_false] at h
        cases h
        refine ⟨v, rfl, ?_, rfl, rfl⟩
        unfold is_new_vuln at hnew
        simpa using hnew
      · right; right
        rw [hnew] at h
        simp only [if_true] at h
        have hid : hasId store v.id = false := by
          unfold is_new_vuln at hnew
          simpa using hnew
        cases h
        refine ⟨v, rfl, hid, ?_, rfl⟩
        unfold save_vuln
        rw [hid]
        simp

theorem processItems_append (pt : String → Option Int) (now : Int) (items : List CveItem) :
    ∀ (store store1 : Store) (n : Nat) (ids : List String),
      processItems pt now items store = Except.ok (store1, n, ids) →
      ∃ tail : List VulnInfo, store1 = store ++ tail ∧
        List.map (fun r => r.id) tail = ids ∧ n = tail.length := by
  induction items with
  | nil =>
    intro store store1 n ids h
    unfold processItems at h
    cases h
    exact ⟨[], by simp, rfl, rfl⟩
  | cons item rest ih =>
    intro store store1 n ids h
    unfold processItems at h
    rcases h1 : processOne pt now item store with e | p
    · rw [h1] at h; cases h
    · rw [h1] at h
      rcases p with ⟨storeA, r⟩
      dsimp only at h
      rcases h2 : processItems pt now rest storeA with e | q
      · rw [h2] at h; cases h
      · rw [h2] at h
        dsimp only at h
        rcases q with ⟨storeB, m, idsB⟩
        rcases ih storeA storeB m idsB h2 with ⟨tail2, hB, hmap2, hlen2⟩
        rcases processOne_inv pt now item store storeA r h1 with
          ⟨_, hsA, hr⟩ | ⟨v, _, _, hsA, hr⟩ | ⟨v, _, _, hsA, hr⟩
        · subst hr; cases h
          exact ⟨tail2, by rw [hB, hsA], hmap2, hlen2⟩
        · subst hr; cases h
          exact ⟨tail2, by rw [hB, hsA], hmap2, hlen2⟩
        · subst hr; cases h
          refine ⟨v :: tail2, ?_, ?_, ?_⟩
          · rw [hB, hsA]; simp
          · simp [hmap2]
          · simp [hlen2]

/-- Claim C4: for every publication timestamp string and evaluation
instant, the recency filter returns true iff the string parses under the
fixed fractional-seconds format (the parse `pt`) and the elapsed time from
the timestamp to the instant is at most one hour; elapsed exactly 3600
seconds is accepted, 3601 seconds is rejected, and an unparseable string
yields false without raising. -/
theorem C4_recency (pt : String → Option Int) (s : String) (now : Int) :
    (is_recent pt s now = true ↔
      ∃ t, pt s = some t ∧ now - t ≤ 1 * 3600 * 1000000)
    ∧ (∀ t, pt s = some t → now - t = 3600 * 1000000 → is_recent pt s now = true)
    ∧ (∀ t, pt s = some t → now - t = 3601 * 1000000 → is_recent pt s now = false)
    ∧ (pt s = none → is_recent pt s now = false) := by
  refine ⟨⟨?_, ?_⟩, ?_, ?_, ?_⟩
  · intro hrec
    rcases h : pt s with _ | t
    · rw [is_recent, h] at hrec; cases hrec
    · refine ⟨t, rfl, ?_⟩
      rw [is_recent, h] at hrec
      exact of_decide_eq_true hrec
  · rintro ⟨t, ht, hle⟩
    rw [is_recent, ht]
    exact decide_eq_true hle
  · intro t ht heq
    rw [is_recent, ht]
    exact decide_eq_true (by omega)
  · intro t ht heq
    rw [is_recent, ht]
    simp only [decide_eq_false_iff_not]
    omega
  · intro hn
    rw [is_recent, hn]

/-- Witness for C4: with a parse mapping the string to instant 0, the
filter accepts at elapsed 3600 s and rejects at elapsed 3601 s. -/
theorem C4_witness :
    is_recent ptZero "2099-01-01T00:00:00.000" (3600 * 1000000) = true ∧
    is_recent ptZero "2099-01-01T00:00:00.000" (3601 * 1000000) = false :=
  ⟨(C4_recency ptZero "2099-01-01T00:00:00.000" (3600 * 1000000)).2.1 0 rfl (by decide),
   (C4_recency ptZero "2099-01-01T00:00:00.000" (3601 * 1000000)).2.2.1 0 rfl (by decide)⟩

/-- Claim C5: inserting a record whose id is already present in the store
does not raise, leaves the stored rows unchanged regardless of payload
differences in the new record, and is a normal duplicate outcome (the
`IntegrityError` branch is swallowed). -/
theorem C5_duplicate_insert (store : Store) (v w : VulnInfo)
    (hw : w ∈ store) (hid : w.id = v.id) :
    save_vuln store v = store := by
  unfold save_vuln
  have hh : hasId store v.id = true := by
    unfold hasId
    rw [List.any_eq_true]
    exact ⟨w, hw, by rw [hid]; exact beq_self_eq_true v.id⟩
  rw [hh]
  simp

/-- Witness for C5: re-inserting `CVE-2099-0001` with a different payload
leaves the single stored row unchanged. -/
theorem C5_witness :
    save_vuln [recFull]
      ⟨"CVE-2099-0001", "other", 8, "changed", "X", "", "OTHER"⟩ = [recFull] :=
  C5_duplicate_insert [recFull] ⟨"CVE-2099-0001", "other", 8, "changed", "X", "", "OTHER"⟩
    recFull (List.mem_singleton.mpr rfl) rfl

/-- Claim C7: when the recent-window fetch yields an empty result and the
single full-year retry also yields nothing, the run ends with zero
processed records, the artifact is not written, the store is untouched and
the function returns 0 instead of crashing; and when the first fetch
yields data, the year fetch plays no role at all. -/
theorem C7_fetch_fallback :
    (∀ (rf yf : FetchOutcome) (pt : String → Option Int) (now : Int) (store : Store),
      fetch_nvd_data rf = [] → fetch_nvd_data yf = [] →
      main_run rf yf pt now store =
        Except.ok { store := store, newCount := 0, newIds := [], artifact := none, ret := 0 })
    ∧ (∀ (rf yf yf2 : FetchOutcome) (pt : String → Option Int) (now : Int) (store : Store),
        fetch_nvd_data rf ≠ [] →
        main_run rf yf pt now store = main_run rf yf2 pt now store) := by
  constructor
  · intro rf yf pt now store hr hy
    unfold main_run
    rw [hr, hy]
    rfl
  · intro rf yf yf2 pt now store hr
    unfold main_run
    rcases h : fetch_nvd_data rf with _ | ⟨a, l⟩
    · exact absurd h hr
    · rfl

/-- Witness for C7: a network error on the recent window followed by a
json decode error on the year window ends with 0 records, no artifact and
return value 0. -/
theorem C7_witness :
    main_run FetchOutcome.networkError FetchOutcome.jsonError ptZero 0 [] =
      Except.ok { store := [], newCount := 0, newIds := [], artifact := none, ret := 0 } :=
  C7_fetch_fallback.1 FetchOutcome.networkError FetchOutcome.jsonError ptZero 0 [] rfl rfl

/-- Claim C10: `fetch_nvd_data` collapses every failure (network, gzip,
json decode, missing `vulnerabilities` key) to the empty list, so an
empty successful fetch is indistinguishable from a failed one: with an
empty recent payload, `main_run` behaves exactly as on a network error and
so also falls back to the year window. -/
theorem C10_fetch_indistinguishable :
    fetch_nvd_data FetchOutcome.networkError = []
    ∧ fetch_nvd_data FetchOutcome.gzipError = []
    ∧ fetch_nvd_data FetchOutcome.jsonError = []
    ∧ fetch_nvd_data (FetchOutcome.payload none) = []
    ∧ fetch_nvd_data (FetchOutcome.payload (some [])) = []
    ∧ (∀ (yf : FetchOutcome) (pt : String → Option Int) (now : Int) (store : Store),
        main_run (FetchOutcome.payload (some [])) yf pt now store =
          main_run FetchOutcome.networkError yf pt now store) := by
  refine ⟨rfl, rfl, rfl, rfl, rfl, ?_⟩
  intro yf pt now store
  rfl

theorem parse_some_inv (pt : String → Option Int) (now : Int) (item : CveItem) (v : VulnInfo)
    (h : parse_cve_item pt now item = Except.ok (some v)) :
    ∃ d p desc sv, item.cve = some d ∧ d.published = some p ∧
      is_recent pt p now = true ∧
      getEnDescription (d.descriptions.getD []) = Except.ok desc ∧
      extract_severity d.metrics = Except.ok sv ∧
      ¬ sv.1 < CVSS_THRESHOLD ∧
      v = ⟨d.id.getD "UNKNOWN", d.published.getD "N/A", sv.1, desc, sv.2,
        String.intercalate "\n" (((d.references.getD []).map (fun r => r.url.getD "")).take 3),
        "NVD"⟩ := by
  have hcore : parse_cve_item_core pt now item = Except.ok (some v) := by
    unfold parse_cve_item at h
    rcases hc : parse_cve_item_core pt now item with e | r
    · rw [hc] at h
      rcases e with k | _
      · dsimp only at h; cases h
      · dsimp only at h; cases h
    · rw [hc] at h
      dsimp only at h
      cases h
      rfl
  unfold parse_cve_item_core at hcore
  rcases hcve : item.cve with _ | d
  · rw [hcve] at hcore; cases hcore
  · rw [hcve] at hcore
    dsimp only at hcore
    rcases hpub : d.published with _ | p
    · rw [hpub] at hcore; cases hcore
    · rw [hpub] at hcore
      dsimp only at hcore
      rcases hrec : is_recent pt p now with _ | _
      · rw [hrec] at hcore
        simp only [Bool.false_eq_true, if_false] at hcore
        cases hcore
      · rw [hrec] at hcore
        simp only [if_true] at hcore
        rcases hdesc : getEnDescription (d.descriptions.getD []) with e | desc
        · rw [hdesc] at hcore; cases hcore
        · rw [hdesc] at hcore
          dsimp only at hcore
          rcases hsev : extract_severity d.metrics with e | sv
          · rw [hsev] at hcore; cases hcore
          · rcases sv with ⟨score, vec⟩
            rw [hsev] at hcore
            dsimp only at hcore
            by_cases hlt : score < CVSS_THRESHOLD
            · rw [if_pos hlt] at hcore; cases hcore
            · rw [if_neg hlt] at hcore
              refine ⟨d, p, desc, (score, vec), rfl, hpub, hrec, hdesc, hsev, hlt, ?_⟩
              cases hcore
              rw [hpub]

/-- Claim C3: the severity extraction consults the schema families in
strict priority order V31, V30, V2: the first present family wins, only
its metric at index 0 is used and sibling families are ignored entirely;
with no family (or no metrics container) the result is `(0.0, "N/A")`;
and a container with both a V31 and a V2 score yields the V31 value. -/
theorem C3_severity_priority :
    (∀ (ms : Metrics) (m : MetricEntry) (rest : List MetricEntry) (d : CvssData),
      ms.cvssMetricV31 = some (m :: rest) → m.cvssData = some d →
      extract_severity (some ms) =
        Except.ok (d.baseScore.getD 0, d.vectorString.getD "N/A"))
    ∧ (∀ (ms : Metrics) (m : MetricEntry) (rest : List MetricEntry) (d : CvssData),
      ms.cvssMetricV31 = none → ms.cvssMetricV30 = some (m :: rest) → m.cvssData = some d →
      extract_severity (some ms) =
        Except.ok (d.baseScore.getD 0, d.vectorString.getD "N/A"))
    ∧ (∀ (ms : Metrics) (m : MetricEntry) (rest : List MetricEntry) (d : CvssData),
      ms.cvssMetricV31 = none → ms.cvssMetricV30 = none → ms.cvssMetricV2 = some (m :: rest) →
      m.cvssData = some d →
      extract_severity (some ms) =
        Except.ok (d.baseScore.getD 0, d.vectorString.getD "N/A"))
    ∧ extract_severity none = Except.ok (0, "N/A")
    ∧ (∀ ms : Metrics, ms.cvssMetricV31 = none → ms.cvssMetricV30 = none →
        ms.cvssMetricV2 = none → extract_severity (some ms) = Except.ok (0, "N/A"))
    ∧ extract_severity (some ⟨some [⟨some ⟨some score98, some "A31"⟩⟩], none,
        some [⟨some ⟨some 5, some "C2"⟩⟩]⟩) = Except.ok (score98, "A31") := by
  refine ⟨?_, ?_, ?_, rfl, ?_, by decide⟩
  · intro ms m rest d h31 hd
    simp [extract_severity, firstMetric, Except.map, h31, hd]
  · intro ms m rest d h31 h30 hd
    simp [extract_severity, firstMetric, Except.map, h31, h30, hd]
  · intro ms m rest d h31 h30 h2 hd
    simp [extract_severity, firstMetric, Except.map, h31, h30, h2, hd]
  · intro ms h31 h30 h2
    simp [extract_severity, h31, h30, h2]

/-- Witness for C3: a container with a V31 metric, a malformed V30 sibling
and an empty V2 sibling still yields the V31 pair untouched. -/
theorem C3_witness :
    extract_severity (some ⟨some [⟨some ⟨some score98, some "AV:N"⟩⟩],
      some [⟨none⟩], some []⟩) = Except.ok (score98, "AV:N") :=
  C3_severity_priority.1 ⟨some [⟨some ⟨some score98, some "AV:N"⟩⟩], some [⟨none⟩], some []⟩
    ⟨some ⟨some score98, some "AV:N"⟩⟩ [] ⟨some score98, some "AV:N"⟩ rfl rfl

/-- Claim C8: every record accepted by the parser carries as `refs` the
reference URLs of its entry in original order, truncated to the first 3
and joined by newlines. -/
theorem C8_refs_truncation (pt : String → Option Int) (now : Int) (item : CveItem)
    (d : CveData) (v : VulnInfo) (hcve : item.cve = some d)
    (h : parse_cve_item pt now item = Except.ok (some v)) :
    v.refs = String.intercalate "\n"
      (((d.references.getD []).map (fun r => r.url.getD "")).take 3) := by
  rcases parse_some_inv pt now item v h with ⟨d2, p, desc, sv, hcve2, _, _, _, _, _, hv⟩
  rw [hcve] at hcve2
  cases hcve2
  rw [hv]

/-- Witness for C8: the entry with five reference URLs yields exactly the
first three, in feed order. -/
theorem C8_witness :
    recFull.refs = String.intercalate "\n"
      (((cveFull.references.getD []).map (fun r => r.url.getD "")).take 3)
    ∧ recFull.refs = "u1\nu2\nu3" :=
  ⟨C8_refs_truncation ptZero 0 itemFull cveFull recFull rfl (by decide), by decide⟩

/-- The cve data of an entry missing its identifier but otherwise fully
well-formed: recent timestamp, English description, V31 score 9.8. -/
def cveNoId : CveData :=
  ⟨none, some "2099-01-01T00:00:00.000", some [⟨some "en", some "d"⟩],
    some ⟨some [⟨some ⟨some score98, some "AV:N"⟩⟩], none, none⟩, none⟩

/-- The feed entry wrapping `cveNoId`. -/
def itemNoId : CveItem := ⟨some cveNoId⟩

/-- The cve data of an entry whose English description is missing its
`value` key, with a recent timestamp and a V31 score of 9.8. -/
def cveNoDescValue : CveData :=
  ⟨some "CVE-2099-0002", some "2099-01-01T00:00:00.000", some [⟨some "en", none⟩],
    some ⟨some [⟨some ⟨some score98, some "AV:N"⟩⟩], none, none⟩, none⟩

/-- The feed entry wrapping `cveNoDescValue`. -/
def itemNoDescValue : CveItem := ⟨some cveNoDescValue⟩

/-- The cve data of an entry missing its publication timestamp. -/
def cveNoPub : CveData := ⟨some "CVE-NOPUB", none, none, none, none⟩

/-- The feed entry wrapping `cveNoPub`. -/
def itemNoPub : CveItem := ⟨some cveNoPub⟩

/-- Counterexample to claim C2 as stated: an entry missing the identifier
is NOT rejected; the parser defaults the id to `"UNKNOWN"` via
`.get("id", "UNKNOWN")` and produces a record. -/
theorem C2_counterexample :
    cveNoId.id = none ∧
    parse_cve_item ptZero 0 itemNoId =
      Except.ok (some ⟨"UNKNOWN", "2099-01-01T00:00:00.000", score98, "d", "AV:N", "", "NVD"⟩) := by
  decide

/-- Claim C2 (amended): an entry missing the `cve` container or the
publication timestamp is structurally rejected with a per-entry skip
(`KeyError` caught and logged, no record, no crash); a missing identifier
is instead defaulted to the placeholder `"UNKNOWN"` and does not cause
rejection. -/
theorem C2_structural_rejection (pt : String → Option Int) (now : Int) (item : CveItem) :
    (item.cve = none → parse_cve_item pt now item = Except.ok none)
    ∧ (∀ d, item.cve = some d → d.published = none →
        parse_cve_item pt now item = Except.ok none) := by
  constructor
  · intro h
    unfold parse_cve_item parse_cve_item_core
    rw [h]
  · intro d hd hp
    unfold parse_cve_item parse_cve_item_core
    rw [hd]
    dsimp only
    rw [hp]

/-- Witness for C2: the entry without a publication timestamp and the
entry without a `cve` container are both skipped without a crash. -/
theorem C2_witness :
    parse_cve_item ptZero 0 itemNoPub = Except.ok none ∧
    parse_cve_item ptZero 0 (⟨none⟩ : CveItem) = Except.ok none :=
  ⟨(C2_structural_rejection ptZero 0 itemNoPub).2 cveNoPub rfl rfl,
   (C2_structural_rejection ptZero 0 ⟨none⟩).1 rfl⟩

/-- Counterexample to claim C1 as stated: an entry whose resolved severity
is 9.8 (>= 7.0), whose timestamp is inside the recency window and whose
id is absent from the store is nevertheless NOT persisted, because its
English description is missing the `value` key and the resulting
`KeyError` structurally rejects the entry. -/
theorem C1_counterexample :
    extract_severity cveNoDescValue.metrics = Except.ok (score98, "AV:N")
    ∧ CVSS_THRESHOLD ≤ score98
    ∧ cveNoDescValue.published = some "2099-01-01T00:00:00.000"
    ∧ is_recent ptZero "2099-01-01T00:00:00.000" 0 = true
    ∧ hasId [] "CVE-2099-0002" = false
    ∧ processOne ptZero 0 itemNoDescValue [] = Except.ok ([], none) := by
  decide

/-- Claim C1 (amended): an entry is persisted iff it structurally parses
to a record (no missing-field `KeyError`) whose id is not already in the
store; every parsed record has resolved severity at least the 7.0
threshold, a recent publication timestamp, and the severity pair produced
by the extractor on its own metrics container. -/
theorem C1_persist_iff (pt : String → Option Int) (now : Int) (item : CveItem) (store : Store) :
    (∀ (store2 : Store) (v : VulnInfo),
      processOne pt now item store = Except.ok (store2, some v) ↔
        (parse_cve_item pt now item = Except.ok (some v) ∧ hasId store v.id = false ∧
         store2 = store ++ [v]))
    ∧ (∀ v : VulnInfo, parse_cve_item pt now item = Except.ok (some v) →
        CVSS_THRESHOLD ≤ v.cvss_score ∧
        ∃ d p, item.cve = some d ∧ d.published = some p ∧ is_recent pt p now = true ∧
          extract_severity d.metrics = Except.ok (v.cvss_score, v.vector_string)) := by
  constructor
  · intro store2 v
    constructor
    · intro h
      rcases processOne_inv pt now item store store2 (some v) h with
        ⟨_, _, hr⟩ | ⟨w, _, _, _, hr⟩ | ⟨w, hp, hid, hs, hr⟩
      · simp at hr
      · simp at hr
      · rcases Option.some.inj hr with rfl
        exact ⟨hp, hid, hs⟩
    · rintro ⟨hp, hid, hs⟩
      unfold processOne
      rw [hp]
      dsimp only
      have hnew : is_new_vuln store v = true := by
        unfold is_new_vuln
        rw [hid]
        rfl
      rw [hnew]
      simp only [if_true]
      unfold save_vuln
      rw [hid]
      simp only [Bool.false_eq_true, if_false]
      rw [hs]
  · intro v hp
    rcases parse_some_inv pt now item v hp with ⟨d, p, desc, sv, hcve, hpub, hrec, hdesc, hsev, hlt, hv⟩
    constructor
    · rw [hv]
      exact not_lt.mp hlt
    · refine ⟨d, p, hcve, hpub, hrec, ?_⟩
      rw [hv]
      simpa using hsev

/-- Witness for C1: the fully well-formed entry with score 9.8 and a
recent timestamp is persisted into the empty store. -/
theorem C1_witness :
    processOne ptZero 0 itemFull [] = Except.ok ([recFull], some recFull) :=
  ((C1_persist_iff ptZero 0 itemFull []).1 [recFull] recFull).mpr
    ⟨by decide, by decide, by decide⟩

theorem is_recent_mono (pt : String → Option Int) (s : String) (now1 now2 : Int)
    (h12 : now1 ≤ now2) (h2 : is_recent pt s now2 = true) : is_recent pt s now1 = true := by
  unfold is_recent at h2 ⊢
  rcases hp : pt s with _ | t
  · rw [hp] at h2
    simp at h2
  · rw [hp] at h2
    dsimp only at h2 ⊢
    have hle := of_decide_eq_true h2
    exact decide_eq_true (by omega)

theorem parse_now_mono_some (pt : String → Option Int) (now1 now2 : Int) (h12 : now1 ≤ now2)
    (item : CveItem) (v : VulnInfo)
    (h : parse_cve_item pt now2 item = Except.ok (some v)) :
    parse_cve_item pt now1 item = Except.ok (some v) := by
  rcases parse_some_inv pt now2 item v h with ⟨d, p, desc, sv, hcve, hpub, hrec, hdesc, hsev, hlt, hv⟩
  rcases sv with ⟨score, vec⟩
  have hrec1 := is_recent_mono pt p now1 now2 h12 hrec
  unfold parse_cve_item parse_cve_item_core
  rw [hcve]
  dsimp only
  rw [hpub]
  dsimp only
  rw [hrec1]
  simp only [if_true]
  rw [hdesc]
  dsimp only
  rw [hsev]
  dsimp only
  rw [if_neg hlt]
  dsimp only
  rw [hv]
  rw [hpub]

theorem getEnDescription_no_index (descs : List Description) :
    getEnDescription descs ≠ Except.error PyErr.indexError := by
  unfold getEnDescription
  split
  · simp
  · split
    · simp
    · simp

theorem parse_err_inv (pt : String → Option Int) (now : Int) (item : CveItem)
    (h : parse_cve_item pt now item = Except.error ()) :
    ∃ d p desc, item.cve = some d ∧ d.published = some p ∧ is_recent pt p now = true ∧
      getEnDescription (d.descriptions.getD []) = Except.ok desc ∧
      extract_severity d.metrics = Except.error PyErr.indexError := by
  have hcore : parse_cve_item_core pt now item = Except.error PyErr.indexError := by
    unfold parse_cve_item at h
    rcases hc : parse_cve_item_core pt now item with e | r
    · rw [hc] at h
      rcases e with k | _
      · dsimp only at h; cases h
      · rfl
    · rw [hc] at h
      dsimp only at h
      cases h
  unfold parse_cve_item_core at hcore
  rcases hcve : item.cve with _ | d
  · rw [hcve] at hcore; cases hcore
  · rw [hcve] at hcore
    dsimp only at hcore
    rcases hpub : d.published with _ | p
    · rw [hpub] at hcore; cases hcore
    · rw [hpub] at hcore
      dsimp only at hcore
      rcases hrec : is_recent pt p now with _ | _
      · rw [hrec] at hcore
        simp only [Bool.false_eq_true, if_false] at hcore
        cases hcore
      · rw [hrec] at hcore
        simp only [if_true] at hcore
        rcases hdesc : getEnDescription (d.descriptions.getD []) with e | desc
        · rw [hdesc] at hcore
          dsimp only at hcore
          cases hcore
          exact absurd hdesc (getEnDescription_no_index _)
        · rw [hdesc] at hcore
          dsimp only at hcore
          rcases hsev : extract_severity d.metrics with e | sv
          · rw [hsev] at hcore
            dsimp only at hcore
            cases hcore
            exact ⟨d, p, desc, rfl, hpub, hrec, hdesc, hsev⟩
          · rcases sv with ⟨score, vec⟩
            rw [hsev] at hcore
            dsimp only at hcore
            by_cases hlt : score < CVSS_THRESHOLD
            · rw [if_pos hlt] at hcore; cases hcore
            · rw [if_neg hlt] at hcore; cases hcore

theorem parse_now_ok (pt : String → Option Int) (now1 now2 : Int) (h12 : now1 ≤ now2)
    (item : CveItem) (r : Option VulnInfo)
    (h : parse_cve_item pt now1 item = Except.ok r) :
    ∃ r2, parse_cve_item pt now2 item = Except.ok r2 := by
  rcases hp2 : parse_cve_item pt now2 item with e | r2
  · rcases e with ⟨⟩
    rcases parse_err_inv pt now2 item hp2 with ⟨d, p, desc, hcve, hpub, hrec2, hdesc, hsev⟩
    have hrec1 := is_recent_mono pt p now1 now2 h12 hrec2
    have hbad : parse_cve_item pt now1 item = Except.error () := by
      unfold parse_cve_item parse_cve_item_core
      rw [hcve]
      dsimp only
      rw [hpub]
      dsimp only
      rw [hrec1]
      simp only [if_true]
      rw [hdesc]
      dsimp only
      rw [hsev]
    rw [h] at hbad
    cases hbad
  · exact ⟨r2, rfl⟩

theorem processItems_coverage (pt : String → Option Int) (now : Int) :
    ∀ (items : List CveItem) (store store1 : Store) (n : Nat) (ids : List String),
      processItems pt now items store = Except.ok (store1, n, ids) →
      (∀ i, hasId store i = true → hasId store1 i = true) ∧
      (∀ item ∈ items, ∃ r, parse_cve_item pt now item = Except.ok r ∧
        ∀ v, r = some v → hasId store1 v.id = true) := by
  intro items
  induction items with
  | nil =>
    intro store store1 n ids h
    unfold processItems at h
    cases h
    exact ⟨fun i hi => hi, fun item hmem => absurd hmem (List.not_mem_nil item)⟩
  | cons item rest ih =>
    intro store store1 n ids h
    unfold processItems at h
    rcases h1 : processOne pt now item store with e | p
    · rw [h1] at h; cases h
    · rw [h1] at h
      rcases p with ⟨storeA, r⟩
      dsimp only at h
      rcases h2 : processItems pt now rest storeA with e | q
      · rw [h2] at h; cases h
      · rw [h2] at h
        dsimp only at h
        rcases q with ⟨storeB, m, idsB⟩
        have hB : storeB = store1 := by
          rcases r with _ | v
          · dsimp only at h; cases h; rfl
          · dsimp only at h; cases h; rfl
        subst hB
        rcases ih storeA storeB m idsB h2 with ⟨hmono2, hcov2⟩
        have hmono1 : ∀ i, hasId store i = true → hasId storeA i = true := by
          rcases processOne_inv pt now item store storeA r h1 with
            ⟨_, hsA, _⟩ | ⟨v, _, _, hsA, _⟩ | ⟨v, _, _, hsA, _⟩
          · subst hsA; exact fun i hi => hi
          · subst hsA; exact fun i hi => hi
          · subst hsA
            intro i hi
            rw [hasId_append, hi]
            rfl
        refine ⟨fun i hi => hmono2 i (hmono1 i hi), ?_⟩
        intro it hmem
        rcases List.mem_cons.mp hmem with rfl | hmem2
        · rcases processOne_inv pt now it store storeA r h1 with
            ⟨hp, hsA, _⟩ | ⟨v, hp, hid, hsA, _⟩ | ⟨v, hp, hid, hsA, _⟩
          · refine ⟨none, hp, ?_⟩
            intro v hv
            cases hv
          · refine ⟨some v, hp, ?_⟩
            intro w hw
            rcases Option.some.inj hw with rfl
            subst hsA
            exact hmono2 _ hid
          · refine ⟨some v, hp, ?_⟩
            intro w hw
            rcases Option.some.inj hw with rfl
            apply hmono2
            rw [hsA, hasId_append]
            have hself : hasId [v] v.id = true := by
              unfold hasId
              simp
            rw [hself]
            simp
        · exact hcov2 it hmem2

theorem processItems_second_run (pt : String → Option Int) (now2 : Int) :
    ∀ (items : List CveItem) (store1 : Store),
      (∀ item ∈ items, ∃ r, parse_cve_item pt now2 item = Except.ok r ∧
        ∀ v, r = some v → hasId store1 v.id = true) →
      processItems pt now2 items store1 = Except.ok (store1, 0, []) := by
  intro items
  induction items with
  | nil =>
    intro store1 h
    rfl
  | cons item rest ih =>
    intro store1 h
    rcases h item (List.mem_cons_self item rest) with ⟨r, hr, hcov⟩
    have hone : processOne pt now2 item store1 = Except.ok (store1, none) := by
      unfold processOne
      rw [hr]
      rcases r with _ | v
      · rfl
      · dsimp only
        have hnotnew : is_new_vuln store1 v = false := by
          unfold is_new_vuln
          rw [hcov v rfl]
          rfl
        rw [hnotnew]
        simp
    unfold processItems
    rw [hone]
    dsimp only
    rw [ih store1 (fun it hit => h it (List.mem_cons_of_mem item hit))]

/-- Claim C6: running the per-item loop a second time over the identical
feed snapshot, against the store produced by the first run (and at any
evaluation instant not earlier than the first), yields zero new records:
every record parsed in the second run has its id already in the store, so
nothing is persisted (the store is returned unchanged) and no identifier
is collected for notification. -/
theorem C6_idempotent (pt : String → Option Int) (now1 now2 : Int) (items : List CveItem)
    (store store1 : Store) (n : Nat) (ids : List String) (h12 : now1 ≤ now2)
    (h1 : processItems pt now1 items store = Except.ok (store1, n, ids)) :
    processItems pt now2 items store1 = Except.ok (store1, 0, []) := by
  apply processItems_second_run
  intro item hmem
  rcases (processItems_coverage pt now1 items store store1 n ids h1).2 item hmem with ⟨r, hr, hcov⟩
  rcases hp2 : parse_cve_item pt now2 item with e | r2
  · rcases parse_now_ok pt now1 now2 h12 item r hr with ⟨r3, hr3⟩
    rw [hp2] at hr3
    cases hr3
  · refine ⟨r2, rfl, ?_⟩
    intro v hv
    subst hv
    have h1p := parse_now_mono_some pt now1 now2 h12 item v hp2
    rw [hr] at h1p
    exact hcov v (Except.ok.inj h1p)

/-- Witness for C6: after the first run persisted `CVE-2099-0001`, the
second run over the same single-entry feed finds nothing new. -/
theorem C6_witness :
    processItems ptZero 0 [itemFull] [recFull] = Except.ok ([recFull], 0, []) :=
  C6_idempotent ptZero 0 0 [itemFull] [] [recFull] 1 ["CVE-2099-0001"] (le_refl 0) (by decide)

/-- The result of a full `main_run` whose recent fetch delivers the single
well-formed entry `itemFull` against an empty store. -/
def resFull : MainResult :=
  ⟨[recFull], 1, ["CVE-2099-0001"], some "1\nCVE-2099-0001", 0⟩

/-- Claim C9: whenever a run completes, the artifact is written iff at
least one new record was found; its contents are the new-record count
followed by a newline and the newly persisted identifiers joined by
newlines, and those identifiers are exactly the ids of the records
appended to the store, in processing order. -/
theorem C9_artifact (rf yf : FetchOutcome) (pt : String → Option Int) (now : Int)
    (store : Store) (res : MainResult)
    (h : main_run rf yf pt now store = Except.ok res) :
    (∃ tail : List VulnInfo, res.store = store ++ tail ∧
      List.map (fun r => r.id) tail = res.newIds ∧ res.newCount = tail.length)
    ∧ res.artifact = (if 0 < res.newCount then
        some (toString res.newCount ++ "\n" ++ String.intercalate "\n" res.newIds)
      else none) := by
  unfold main_run at h
  dsimp only at h
  split at h
  · split at h
    · cases h
      exact ⟨⟨[], by simp, rfl, rfl⟩, rfl⟩
    · rcases hq : processItems pt now (fetch_nvd_data yf) store with e | trip
      · rw [hq] at h; cases h
      · rw [hq] at h
        rcases trip with ⟨storeB, m, idsB⟩
        dsimp only at h
        cases h
        rcases processItems_append pt now _ store storeB m idsB hq with ⟨tail, hs, hmap, hlen⟩
        exact ⟨⟨tail, hs, hmap, hlen⟩, rfl⟩
  · rcases hq : processItems pt now (fetch_nvd_data rf) store with e | trip
    · rw [hq] at h; cases h
    · rw [hq] at h
      rcases trip with ⟨storeB, m, idsB⟩
      dsimp only at h
      cases h
      rcases processItems_append pt now _ store storeB m idsB hq with ⟨tail, hs, hmap, hlen⟩
      exact ⟨⟨tail, hs, hmap, hlen⟩, rfl⟩

/-- Witness for C9: the run that persists exactly `CVE-2099-0001` writes
the artifact `"1\nCVE-2099-0001"`; its id list matches the single appended
record. -/
theorem C9_witness :
    (∃ tail : List VulnInfo, resFull.store = [] ++ tail ∧
      List.map (fun r => r.id) tail = resFull.newIds ∧ resFull.newCount = tail.length)
    ∧ resFull.artifact = (if 0 < resFull.newCount then
        some (toString resFull.newCount ++ "\n" ++ String.intercalate "\n" resFull.newIds)
      else none) :=
  C9_artifact (FetchOutcome.payload (some [itemFull])) FetchOutcome.networkError ptZero 0 []
    resFull (by decide)
